import Mathlib

/-!
Shallow embedding of the cultural-cuisine rules engine from
`src/ai-services/cultural-cuisine-service.ts`: ingredient substitution
resolution, authenticity scoring, and region-keyed pairing/etiquette
lookups, together with theorems settling the specification claims.
-/

/-- The three-level flavor-impact classification of a substitution rule. -/
inductive FlavorImpact where
  | minimal
  | moderate
  | significant
deriving DecidableEq, BEq, Repr

/-- A recipe as consumed by the engine: the engine only reads the ordered
list of authentic ingredient names; `title` stands for the remaining
fields of the external `CulturalRecipe` entity. -/
structure CulturalRecipe where
  title : String
  authenticIngredients : List String
deriving DecidableEq, Repr

/-- A pantry item: the engine only reads its free-text `name`. -/
structure PantryItem where
  name : String
deriving DecidableEq, Repr

/-- Engine output pairing an original ingredient with a chosen substitute. -/
structure IngredientSubstitution where
  original : String
  substitute : String
  notes : String
  flavorImpact : FlavorImpact
deriving DecidableEq, Repr

/-- A substitution rule: ordered candidate substitutes, usage notes and a
flavor-impact class. -/
structure SubstitutionRule where
  substitutes : List String
  notes : String
  flavorImpact : FlavorImpact
deriving DecidableEq, Repr

/-- The cuisine descriptor passed to `findComplementaryDishes`. -/
structure Cuisine where
  region : String
  keyIngredients : List String
deriving DecidableEq, Repr

/-- Result of `analyzeAuthenticityScore`. -/
structure AuthenticityResult where
  score : Int
  feedback : List String
deriving DecidableEq, Repr

/-- The four dish-category lists returned by the pairing lookup. -/
structure Pairings where
  mainDishes : List String
  sideDishes : List String
  desserts : List String
  beverages : List String
deriving DecidableEq, Repr

/-- The four etiquette-category lists returned by the etiquette lookup. -/
structure Etiquette where
  presentation : List String
  customs : List String
  taboos : List String
  servingOrder : List String
deriving DecidableEq, Repr

/-- JavaScript `String.prototype.toLowerCase` on the ASCII strings used by
the engine: lowercase every character. -/
def strLower (s : String) : String :=
  String.mk (s.toList.map Char.toLower)

/-- `listIsPrefixOf pat s` : `pat` is a prefix of `s` (character lists). -/
def listIsPrefixOf : List Char → List Char → Bool
  | [], _ => true
  | _ :: _, [] => false
  | a :: as, b :: bs => a == b && listIsPrefixOf as bs

/-- `containsSub s pat` : `pat` occurs as a contiguous substring of `s`. -/
def containsSub : List Char → List Char → Bool
  | s, pat =>
    if listIsPrefixOf pat s then true
    else
      match s with
      | [] => false
      | _ :: rest => containsSub rest pat

/-- JavaScript `a.includes(b)` : `b` occurs as a substring of `a`. -/
def strIncludes (a b : String) : Bool :=
  containsSub a.toList b.toList

/-- The static substitution-rule record of `getSubstitutionRules`, as an
association list keyed by lowercased canonical ingredient name, in the
source's declaration order. -/
def substitutionRules : List (String × SubstitutionRule) :=
  [ ("kaffir lime leaves",
     ⟨["lime zest", "bay leaves with lime zest"],
      "Use lime zest for citrus notes, bay leaf adds aromatic element",
      FlavorImpact.moderate⟩),
    ("fish sauce",
     ⟨["soy sauce with salt", "worcestershire sauce"],
      "Add a pinch of salt and a drop of vinegar to better mimic umami flavor",
      FlavorImpact.significant⟩),
    ("gochujang",
     ⟨["sriracha with miso paste", "red pepper flakes with honey"],
      "Mix 2 parts sriracha with 1 part miso for similar fermented spicy flavor",
      FlavorImpact.moderate⟩),
    ("lemongrass",
     ⟨["lemon zest with ginger", "lemon verbena"],
      "Combine 1 tablespoon lemon zest with 1/4 teaspoon ginger powder",
      FlavorImpact.moderate⟩),
    ("tahini",
     ⟨["smooth peanut butter", "sunflower seed butter"],
      "Thin with sesame oil if available for closer flavor profile",
      FlavorImpact.minimal⟩),
    ("ghee",
     ⟨["clarified butter", "butter", "coconut oil"],
      "Unsalted butter is your best alternative, coconut oil changes flavor profile",
      FlavorImpact.minimal⟩),
    ("sumac",
     ⟨["lemon zest", "amchoor powder", "tamarind"],
      "Add a touch of salt to lemon zest for similar tanginess",
      FlavorImpact.moderate⟩),
    ("oyster sauce",
     ⟨["hoisin sauce", "soy sauce with sugar"],
      "Mix 1 tablespoon soy sauce with 1/2 teaspoon sugar and 1/2 teaspoon Worcestershire sauce",
      FlavorImpact.moderate⟩),
    ("galangal",
     ⟨["ginger", "ginger with lemon zest"],
      "True galangal has a sharper, citrusy flavor than ginger",
      FlavorImpact.moderate⟩),
    ("tamarind paste",
     ⟨["lime juice with brown sugar", "pomegranate molasses", "vinegar with dates"],
      "Mix 1 part lime juice with 1 part brown sugar for similar sweet-sour profile",
      FlavorImpact.moderate⟩),
    ("shiso leaves",
     ⟨["mint with basil", "thai basil"],
      "Equal parts mint and basil can approximate the complex flavor",
      FlavorImpact.moderate⟩),
    ("miso paste",
     ⟨["tahini with soy sauce", "vegetable bouillon"],
      "Lacks fermented quality but provides umami base",
      FlavorImpact.significant⟩),
    ("za\x27atar",
     ⟨["thyme with sesame seeds and sumac", "thyme with lemon zest"],
      "Mix 1 tbsp thyme, 1 tsp sesame seeds, pinch of salt and lemon zest",
      FlavorImpact.moderate⟩),
    ("plantains",
     ⟨["green bananas", "potatoes for savory dishes"],
      "Texture will differ; use less cooking time",
      FlavorImpact.significant⟩),
    ("paneer",
     ⟨["firm tofu", "halloumi", "queso fresco"],
      "Drain tofu well and press before using",
      FlavorImpact.moderate⟩) ]

/-- `substitutionRules[key]` of the source: record indexing, `none` when
the key is absent. -/
def getSubstitutionRules (key : String) : Option SubstitutionRule :=
  substitutionRules.lookup key

/-- The availability test applied to one candidate substitute: some pantry
item's lowercased name contains the lowercased candidate as a substring
(`pantryItems.some (item => item.name.toLowerCase().includes(sub.toLowerCase()))`). -/
def pantryHasSubstitute (pantryItems : List PantryItem) (sub : String) : Bool :=
  pantryItems.any (fun item => strIncludes (strLower item.name) (strLower sub))

/-- The loop body of `findIngredientSubstitutes` for one ingredient:
look up the rule by lowercased name; if present, emit the first candidate
available in the pantry, falling back to the first-listed candidate. -/
def substituteForIngredient (pantryItems : List PantryItem)
    (ingredient : String) : Option IngredientSubstitution :=
  match getSubstitutionRules (strLower ingredient) with
  | none => none
  | some rule =>
    match rule.substitutes.find? (pantryHasSubstitute pantryItems) with
    | some availableSubstitute =>
      some ⟨ingredient, availableSubstitute, rule.notes, rule.flavorImpact⟩
    | none =>
      some ⟨ingredient, rule.substitutes.headD "", rule.notes, rule.flavorImpact⟩

/-- `findIngredientSubstitutes(recipe, pantryItems, userRegion)`. -/
def findIngredientSubstitutes (recipe : CulturalRecipe)
    (pantryItems : List PantryItem) (userRegion : String) :
    List IngredientSubstitution :=
  recipe.authenticIngredients.filterMap (substituteForIngredient pantryItems)

/-- The fixed per-class penalty deducted for one substitution. -/
def impactPenalty : FlavorImpact → Int
  | FlavorImpact.minimal => 5
  | FlavorImpact.moderate => 10
  | FlavorImpact.significant => 20

/-- The fixed per-class feedback message for one substitution. -/
def substitutionFeedback (sub : IngredientSubstitution) : String :=
  match sub.flavorImpact with
  | FlavorImpact.minimal =>
    "Using " ++ sub.substitute ++ " instead of " ++ sub.original ++
      " has minimal impact on authenticity"
  | FlavorImpact.moderate =>
    "Using " ++ sub.substitute ++ " instead of " ++ sub.original ++
      " moderately affects the authentic flavor"
  | FlavorImpact.significant =>
    "Using " ++ sub.substitute ++ " instead of " ++ sub.original ++
      " significantly changes the traditional taste"

/-- `analyzeAuthenticityScore(recipe, usedSubstitutions)`: start at 100,
deduct the per-class penalty and push the per-class feedback message for
each substitution in input order, then clamp the score at 0. -/
def analyzeAuthenticityScore (recipe : CulturalRecipe)
    (usedSubstitutions : List IngredientSubstitution) : AuthenticityResult :=
  let acc := usedSubstitutions.foldl
    (fun acc sub =>
      (acc.1 - impactPenalty sub.flavorImpact, acc.2 ++ [substitutionFeedback sub]))
    ((100 : Int), ([] : List String))
  ⟨max 0 acc.1, acc.2⟩

/-- The static region-keyed pairing table of `getTraditionalPairings`, in
the source's declaration order. -/
def traditionalPairings : List (String × Pairings) :=
  [ ("east_asia",
     ⟨["Steamed Fish", "Stir-fried Vegetables", "Clay Pot Rice"],
      ["Pickled Vegetables", "Cold Salad", "Steamed Eggs"],
      ["Red Bean Soup", "Mango Pudding", "Egg Tarts"],
      ["Jasmine Tea", "Oolong Tea", "Rice Wine"]⟩),
    ("southeast_asia",
     ⟨["Green Curry", "Pad Thai", "Beef Rendang"],
      ["Som Tam", "Sticky Rice", "Roti Canai"],
      ["Mango Sticky Rice", "Thai Tea Ice Cream", "Kuih"],
      ["Thai Iced Tea", "Coconut Water", "Sugarcane Juice"]⟩),
    ("south_asia",
     ⟨["Butter Chicken", "Biryani", "Dal Makhani"],
      ["Naan", "Raita", "Chutney"],
      ["Gulab Jamun", "Kheer", "Jalebi"],
      ["Lassi", "Masala Chai", "Rooh Afza"]⟩),
    ("middle_east",
     ⟨["Lamb Shawarma", "Falafel", "Kebabs"],
      ["Hummus", "Tabbouleh", "Baba Ganoush"],
      ["Baklava", "Kunafa", "Turkish Delight"],
      ["Mint Tea", "Turkish Coffee", "Ayran"]⟩),
    ("mediterranean",
     ⟨["Paella", "Moussaka", "Risotto"],
      ["Greek Salad", "Bruschetta", "Dolmas"],
      ["Tiramisu", "Baklava", "Panna Cotta"],
      ["Wine", "Limoncello", "Ouzo"]⟩),
    ("latin_america",
     ⟨["Tacos", "Mole Poblano", "Feijoada"],
      ["Guacamole", "Elote", "Black Beans"],
      ["Tres Leches Cake", "Churros", "Flan"],
      ["Horchata", "Margarita", "Agua Fresca"]⟩),
    ("caribbean",
     ⟨["Jerk Chicken", "Curry Goat", "Ackee and Saltfish"],
      ["Rice and Peas", "Festival", "Plantains"],
      ["Rum Cake", "Sweet Potato Pudding", "Coconut Drops"],
      ["Rum Punch", "Sorrel Drink", "Ginger Beer"]⟩),
    ("west_africa",
     ⟨["Jollof Rice", "Egusi Soup", "Peanut Stew"],
      ["Fufu", "Fried Plantains", "Moin Moin"],
      ["Chin Chin", "Puff Puff", "Coconut Candy"],
      ["Palm Wine", "Bissap", "Ginger Drink"]⟩),
    ("east_africa",
     ⟨["Injera with Wat", "Nyama Choma", "Pilau Rice"],
      ["Chapati", "Sukuma Wiki", "Ugali"],
      ["Mandazi", "Kashata", "Maandazi"],
      ["Ethiopian Coffee", "Tangawizi", "Urwaga"]⟩),
    ("north_africa",
     ⟨["Couscous", "Tagine", "Shakshuka"],
      ["Harissa", "Zaalouk", "Batbout"],
      ["Makroud", "Msemen", "Basbousa"],
      ["Mint Tea", "Almond Milk", "Hibiscus Tea"]⟩) ]

/-- `getTraditionalPairings(region)`: exact-match lookup, the all-empty
record when the region is absent (`pairings[region] || {empty lists}`). -/
def getTraditionalPairings (region : String) : Pairings :=
  (traditionalPairings.lookup region).getD ⟨[], [], [], []⟩

/-- `findComplementaryDishes(recipe, cuisine)`: return the traditional
pairings for `cuisine.region`, each category defaulting to `[]`. -/
def findComplementaryDishes (recipe : CulturalRecipe) (cuisine : Cuisine) :
    Pairings :=
  let pairings := getTraditionalPairings cuisine.region
  ⟨pairings.mainDishes, pairings.sideDishes, pairings.desserts, pairings.beverages⟩

/-- The static region-keyed etiquette table of `getRegionalEtiquette`, in
the source's declaration order. -/
def regionalEtiquette : List (String × Etiquette) :=
  [ ("east_asia",
     ⟨["Serve rice in individual bowls",
       "Place shared dishes in the center",
       "Arrange food to highlight colors and textures",
       "Use small plates for individual portions"],
      ["Hold rice bowl close to mouth",
       "Use chopsticks correctly",
       "Pour tea for others before yourself",
       "Tap fingers as thanks when someone pours tea for you"],
      ["Don\x27t stick chopsticks vertically in rice",
       "Don\x27t pass food directly from chopsticks to chopsticks",
       "Don\x27t point with chopsticks",
       "Don\x27t flip fish over on the plate"],
      ["Soup first",
       "Rice and main dishes together",
       "Fruit or light dessert last",
       "Tea throughout the meal"]⟩),
    ("southeast_asia",
     ⟨["Serve food family-style on a raised platform",
       "Arrange dishes by spice level",
       "Include contrasting textures and flavors",
       "Garnish with fresh herbs and lime wedges"],
      ["Eat with right hand in some regions",
       "Use fork and spoon (fork to push, spoon to eat)",
       "Take small portions to sample everything",
       "Cool spicy dishes with plain rice"],
      ["Don\x27t use left hand for eating",
       "Don\x27t place serving spoons in your mouth",
       "Don\x27t leave chopsticks crossed",
       "Don\x27t waste rice"],
      ["All dishes served simultaneously",
       "Rice as the foundation",
       "Balance between spicy, sour, sweet and savory in one meal",
       "Fresh fruit for dessert"]⟩),
    ("south_asia",
     ⟨["Serve on thali plates with small compartments",
       "Balance colors and textures across the plate",
       "Place bread and rice separately",
       "Arrange accompaniments in small bowls"],
      ["Traditionally eat with right hand fingers",
       "Tear bread with fingers, not cutlery",
       "Share food and offer to others first",
       "Mix rice with curry using fingertips"],
      ["Don\x27t use left hand for eating or passing food",
       "Don\x27t waste food on your plate",
       "Don\x27t start eating before elders or guests",
       "Don\x27t lick fingers in formal settings"],
      ["Begin with something sweet in some regions",
       "Serve bread and rice with main dishes",
       "Sweet dish or paan to conclude the meal",
       "Yogurt or raita to balance spice"]⟩),
    ("middle_east",
     ⟨["Large central platters for sharing",
       "Multiple small mezze dishes",
       "Vibrant colors and garnishes",
       "Arrange bread in cloth-lined baskets"],
      ["Break bread with hands, never cut with knife",
       "Dip bread in shared dishes",
       "Serve elders and guests first",
       "Use right hand for eating"],
      ["Don\x27t refuse offered food (take at least a small portion)",
       "Don\x27t eat with left hand",
       "Don\x27t rush through meals",
       "Don\x27t blow on hot food"],
      ["Mezze (small appetizers) first",
       "Main dishes with bread",
       "Sweet tea and desserts after the meal",
       "Coffee to conclude"]⟩),
    ("mediterranean",
     ⟨["Simple, rustic presentation",
       "Fresh herbs as garnish",
       "Olive oil drizzled as finishing touch",
       "Colorful vegetable arrangements"],
      ["Bread accompanies the entire meal",
       "Share multiple dishes family-style",
       "Use bread to soak up sauces",
       "Leisurely pace with conversation"],
      ["Don\x27t rush the meal",
       "Don\x27t waste bread",
       "Don\x27t add cheese to seafood pasta in Italy",
       "Don\x27t ask for additional seasoning before tasting"],
      ["Antipasti/appetizers",
       "Pasta or rice dish",
       "Main protein dish",
       "Salad course",
       "Cheese and fruit",
       "Dessert and coffee"]⟩),
    ("latin_america",
     ⟨["Colorful arrangements",
       "Fresh garnishes like cilantro and lime",
       "Serve with traditional salsas on the side",
       "Family-style large platters"],
      ["Wait for eldest to begin eating",
       "Keep hands visible on table, not in lap",
       "Use tortillas or bread to scoop food",
       "Express appreciation for the food"],
      ["Don\x27t eat tacos with fork and knife",
       "Don\x27t add hot sauce before tasting",
       "Don\x27t refuse offered food in someone\x27s home",
       "Don\x27t leave the table until everyone is finished"],
      ["Soup or light appetizer",
       "Main course with sides",
       "Dessert",
       "Coffee or digestif"]⟩) ]

/-- `getRegionalEtiquette(region)`: exact-match lookup, the all-empty
record when the region is absent (`etiquette[region] || {empty lists}`). -/
def getRegionalEtiquette (region : String) : Etiquette :=
  (regionalEtiquette.lookup region).getD ⟨[], [], [], []⟩

/-- `getServingEtiquetteGuide(recipe, region)`: return the regional
etiquette for `region`, each category defaulting to `[]`. -/
def getServingEtiquetteGuide (recipe : CulturalRecipe) (region : String) :
    Etiquette :=
  let etiquette := getRegionalEtiquette region
  ⟨etiquette.presentation, etiquette.customs, etiquette.taboos, etiquette.servingOrder⟩

/-- Total penalty deducted by the scorer over a substitution list. -/
def penaltySum (subs : List IngredientSubstitution) : Int :=
  (subs.map (fun s => impactPenalty s.flavorImpact)).sum

/-- Number of substitutions in `subs` carrying flavor impact `imp`. -/
def countImpact : List IngredientSubstitution → FlavorImpact → Nat
  | [], _ => 0
  | s :: t, imp => (if s.flavorImpact = imp then 1 else 0) + countImpact t imp

lemma analyzeAuthenticity_foldl (subs : List IngredientSubstitution) :
    ∀ (a : Int) (fb : List String),
      subs.foldl
        (fun acc sub =>
          (acc.1 - impactPenalty sub.flavorImpact, acc.2 ++ [substitutionFeedback sub]))
        (a, fb)
      = (a - penaltySum subs, fb ++ subs.map substitutionFeedback) := by
  induction subs with
  | nil => intro a fb; simp [penaltySum]
  | cons s t ih =>
    intro a fb
    rw [List.foldl_cons, ih]
    refine Prod.ext ?_ ?_
    · show a - impactPenalty s.flavorImpact - penaltySum t = a - penaltySum (s :: t)
      simp [penaltySum]
      omega
    · simp

lemma penaltySum_counts (subs : List IngredientSubstitution) :
    penaltySum subs =
      5 * (countImpact subs FlavorImpact.minimal : Int) +
      10 * (countImpact subs FlavorImpact.moderate : Int) +
      20 * (countImpact subs FlavorImpact.significant : Int) := by
  induction subs with
  | nil => simp [penaltySum, countImpact]
  | cons s t ih =>
    have hps : penaltySum (s :: t) = impactPenalty s.flavorImpact + penaltySum t := by
      simp [penaltySum]
    cases h : s.flavorImpact <;>
      simp [hps, countImpact, h, impactPenalty, ih] <;> ring

lemma find_first_char {α : Type} (p : α → Bool) :
    ∀ (l : List α) (a : α), l.find? p = some a →
      ∃ i, ∃ hi : i < l.length, l.get ⟨i, hi⟩ = a ∧ p a = true ∧
        ∀ j, (hj : j < l.length) → j < i → p (l.get ⟨j, hj⟩) = false := by
  intro l
  induction l with
  | nil => intro a h; simp [List.find?] at h
  | cons x xs ih =>
    intro a h
    cases hx : p x with
    | true =>
      rw [List.find?_cons_of_pos _ hx] at h
      have hxa : x = a := by injection h
      subst hxa
      exact ⟨0, Nat.succ_pos _, rfl, hx, fun j hj hji => absurd hji (Nat.not_lt_zero j)⟩
    | false =>
      rw [List.find?_cons_of_neg _ (by simp [hx])] at h
      obtain ⟨i, hi, hget, hpa, hfirst⟩ := ih a h
      refine ⟨i + 1, Nat.succ_lt_succ hi, hget, hpa, ?_⟩
      intro j hj hji
      cases j with
      | zero => exact hx
      | succ j' => exact hfirst j' (Nat.lt_of_succ_lt_succ hj) (Nat.lt_of_succ_lt_succ hji)

lemma lookup_mem_pairs {β : Type} :
    ∀ (l : List (String × β)) (k : String) (v : β),
      l.lookup k = some v → (k, v) ∈ l := by
  intro l
  induction l with
  | nil => intro k v h; simp [List.lookup] at h
  | cons e t ih =>
    intro k v h
    cases e with
    | mk k' v' =>
      cases hk : (k == k') with
      | true =>
        have hkk : k = k' := by simpa using hk
        rw [List.lookup, hk] at h
        have hv : v' = v := by injection h
        subst hkk; subst hv
        exact List.mem_cons_self _ _
      | false =>
        rw [List.lookup, hk] at h
        exact List.mem_cons_of_mem _ (ih k v h)

lemma headD_mem {l : List String} (h : l ≠ []) : l.headD "" ∈ l := by
  cases l with
  | nil => exact absurd rfl h
  | cons a t => simp [List.headD]

lemma substituteForIngredient_some_of_rule (p : List PantryItem)
    (ingredient : String) (rule : SubstitutionRule)
    (h : getSubstitutionRules (strLower ingredient) = some rule) :
    ∃ sub, substituteForIngredient p ingredient = some sub ∧
      sub.original = ingredient := by
  cases hf : rule.substitutes.find? (pantryHasSubstitute p) with
  | some a =>
    exact ⟨⟨ingredient, a, rule.notes, rule.flavorImpact⟩,
      by simp [substituteForIngredient, h, hf], rfl⟩
  | none =>
    exact ⟨⟨ingredient, rule.substitutes.headD "", rule.notes, rule.flavorImpact⟩,
      by simp [substituteForIngredient, h, hf], rfl⟩

lemma substituteForIngredient_elim (p : List PantryItem) (i : String)
    (sub : IngredientSubstitution)
    (h : substituteForIngredient p i = some sub) :
    ∃ rule, getSubstitutionRules (strLower i) = some rule ∧
      sub.original = i ∧ sub.notes = rule.notes ∧
      sub.flavorImpact = rule.flavorImpact ∧
      ((rule.substitutes.find? (pantryHasSubstitute p) = some sub.substitute) ∨
       (rule.substitutes.find? (pantryHasSubstitute p) = none ∧
        sub.substitute = rule.substitutes.headD "")) := by
  cases hx : getSubstitutionRules (strLower i) with
  | none => rw [substituteForIngredient, hx] at h; exact absurd h (by simp)
  | some rule =>
    refine ⟨rule, rfl, ?_⟩
    cases hf : rule.substitutes.find? (pantryHasSubstitute p) with
    | some a =>
      have h' : some (⟨i, a, rule.notes, rule.flavorImpact⟩ : IngredientSubstitution) =
          some sub := by
        rw [← h]; simp [substituteForIngredient, hx, hf]
      have hs : (⟨i, a, rule.notes, rule.flavorImpact⟩ : IngredientSubstitution) = sub := by
        injection h'
      subst hs
      exact ⟨rfl, rfl, rfl, Or.inl rfl⟩
    | none =>
      have h' : some (⟨i, rule.substitutes.headD "", rule.notes, rule.flavorImpact⟩ :
          IngredientSubstitution) = some sub := by
        rw [← h]; simp [substituteForIngredient, hx, hf]
      have hs : (⟨i, rule.substitutes.headD "", rule.notes, rule.flavorImpact⟩ :
          IngredientSubstitution) = sub := by
        injection h'
      subst hs
      exact ⟨rfl, rfl, rfl, Or.inr ⟨rfl, rfl⟩⟩

lemma substitutionRules_nonempty_lists :
    ∀ entry ∈ substitutionRules, entry.2.substitutes ≠ [] := by decide

lemma originals_eq_filter (p : List PantryItem) :
    ∀ l : List String,
      (l.filterMap (substituteForIngredient p)).map IngredientSubstitution.original
        = l.filter (fun i => (getSubstitutionRules (strLower i)).isSome) := by
  intro l
  induction l with
  | nil => rfl
  | cons x t ih =>
    rw [List.filterMap_cons, List.filter_cons]
    cases hx : getSubstitutionRules (strLower x) with
    | none =>
      have hnone : substituteForIngredient p x = none := by
        simp [substituteForIngredient, hx]
      simp [hnone, hx, ih]
    | some rule =>
      obtain ⟨sub, hs, ho⟩ := substituteForIngredient_some_of_rule p x rule hx
      simp [hs, hx, ih, ho]

/-- Claim C2: for every substitution sequence, the authenticity score is
100 minus 5 per minimal, 10 per moderate and 20 per significant
substitution, clamped at 0; the feedback holds exactly one per-class
template string per substitution in input order; in particular impacts
[minimal, moderate, significant] yield score 65 with 3 feedback strings,
and the score is never negative. -/
theorem authenticity_score_formula_and_feedback
    (recipe : CulturalRecipe) (subs : List IngredientSubstitution) :
    (analyzeAuthenticityScore recipe subs).score =
        max 0 (100 - 5 * (countImpact subs FlavorImpact.minimal : Int)
                   - 10 * (countImpact subs FlavorImpact.moderate : Int)
                   - 20 * (countImpact subs FlavorImpact.significant : Int)) ∧
    (analyzeAuthenticityScore recipe subs).feedback = subs.map substitutionFeedback ∧
    0 ≤ (analyzeAuthenticityScore recipe subs).score ∧
    analyzeAuthenticityScore recipe
        [⟨"a", "b", "n", FlavorImpact.minimal⟩,
         ⟨"c", "d", "n", FlavorImpact.moderate⟩,
         ⟨"e", "f", "n", FlavorImpact.significant⟩]
      = ⟨65, ["Using b instead of a has minimal impact on authenticity",
              "Using d instead of c moderately affects the authentic flavor",
              "Using f instead of e significantly changes the traditional taste"]⟩ := by
  have hmain : analyzeAuthenticityScore recipe subs =
      ⟨max 0 (100 - penaltySum subs), subs.map substitutionFeedback⟩ := by
    simp [analyzeAuthenticityScore, analyzeAuthenticity_foldl subs 100 []]
  refine ⟨?_, ?_, ?_, ?_⟩
  · rw [hmain]
    show max 0 (100 - penaltySum subs) = _
    rw [penaltySum_counts]
    congr 1
    ring
  · rw [hmain]
  · rw [hmain]
    exact le_max_left 0 _
  · rfl

/-- Claim C3 counterexample: with input ingredient "fish sauce" and pantry
["Light Soy Sauce"], it is false that the substitute "soy sauce with salt"
is selected by case-insensitive substring matching against the pantry: the
pantry item's lowercased name does not contain the candidate. -/
theorem fish_sauce_pantry_match_claim_false :
    ¬ (findIngredientSubstitutes ⟨"Pad Thai", ["fish sauce"]⟩
          [⟨"Light Soy Sauce"⟩] "east_asia"
          = [⟨"fish sauce", "soy sauce with salt",
              "Add a pinch of salt and a drop of vinegar to better mimic umami flavor",
              FlavorImpact.significant⟩] ∧
        pantryHasSubstitute [⟨"Light Soy Sauce"⟩] "soy sauce with salt" = true) := by
  decide

/-- Claim C3 as amended: with input ingredient "fish sauce" and pantry
["Light Soy Sauce"], the engine returns one substitution with substitute
"soy sauce with salt", but neither candidate of the rule matches the
pantry by case-insensitive substring containment, so the substitute is
chosen by the fallback to the rule's first-listed candidate. -/
theorem fish_sauce_fallback_first_candidate :
    findIngredientSubstitutes ⟨"Pad Thai", ["fish sauce"]⟩
        [⟨"Light Soy Sauce"⟩] "east_asia"
        = [⟨"fish sauce", "soy sauce with salt",
            "Add a pinch of salt and a drop of vinegar to better mimic umami flavor",
            FlavorImpact.significant⟩] ∧
    pantryHasSubstitute [⟨"Light Soy Sauce"⟩] "soy sauce with salt" = false ∧
    pantryHasSubstitute [⟨"Light Soy Sauce"⟩] "worcestershire sauce" = false ∧
    Option.map SubstitutionRule.substitutes (getSubstitutionRules "fish sauce")
        = some ["soy sauce with salt", "worcestershire sauce"] := by
  decide

/-- Claim C9: the output of `findIngredientSubstitutes` is independent of
its `userRegion` parameter. -/
theorem substitution_independent_of_user_region
    (recipe : CulturalRecipe) (pantryItems : List PantryItem) (r1 r2 : String) :
    findIngredientSubstitutes recipe pantryItems r1
      = findIngredientSubstitutes recipe pantryItems r2 := rfl

/-- Claim C4: `findIngredientSubstitutes` emits no entry for ingredients
whose lowercased name has no substitution rule, emits at most one
substitution per input ingredient, preserves input order (the originals of
the output are exactly the matchable inputs in order), its output length
is at most the input length, and an input with no matchable ingredients
yields the empty sequence. -/
theorem substitution_skips_unknown_ingredients
    (recipe : CulturalRecipe) (pantryItems : List PantryItem) (userRegion : String) :
    (findIngredientSubstitutes recipe pantryItems userRegion).map
        IngredientSubstitution.original
      = recipe.authenticIngredients.filter
          (fun i => (getSubstitutionRules (strLower i)).isSome) ∧
    (findIngredientSubstitutes recipe pantryItems userRegion).length
      ≤ recipe.authenticIngredients.length ∧
    (∀ i, getSubstitutionRules (strLower i) = none →
      ∀ sub ∈ findIngredientSubstitutes recipe pantryItems userRegion,
        sub.original ≠ i) ∧
    ((∀ i ∈ recipe.authenticIngredients, getSubstitutionRules (strLower i) = none) →
      findIngredientSubstitutes recipe pantryItems userRegion = []) := by
  have h1 : (findIngredientSubstitutes recipe pantryItems userRegion).map
      IngredientSubstitution.original
      = recipe.authenticIngredients.filter
          (fun i => (getSubstitutionRules (strLower i)).isSome) :=
    originals_eq_filter pantryItems recipe.authenticIngredients
  refine ⟨h1, ?_, ?_, ?_⟩
  · have hlen := congrArg List.length h1
    rw [List.length_map] at hlen
    rw [hlen]
    exact List.length_filter_le _ _
  · intro i hi sub hsub hoi
    have hm : sub.original ∈ (findIngredientSubstitutes recipe pantryItems
        userRegion).map IngredientSubstitution.original :=
      List.mem_map_of_mem _ hsub
    rw [h1] at hm
    have := List.of_mem_filter hm
    rw [hoi, hi] at this
    simp at this
  · intro hall
    have hfil : recipe.authenticIngredients.filter
        (fun i => (getSubstitutionRules (strLower i)).isSome) = [] := by
      rw [List.filter_eq_nil_iff]
      intro a ha
      rw [hall a ha]
      simp
    rw [hfil] at h1
    exact List.map_eq_nil_iff.mp h1

/-- Witness for C4: a recipe whose only ingredient has no substitution
rule yields the empty output. -/
theorem unknown_ingredients_yield_empty_output :
    findIngredientSubstitutes ⟨"Fruit Salad", ["dragon fruit"]⟩ [] "oceania" = [] :=
  (substitution_skips_unknown_ingredients ⟨"Fruit Salad", ["dragon fruit"]⟩ []
    "oceania").2.2.2 (by decide)

/-- Claim C1: for each input ingredient whose lowercased name has a rule,
the engine emits an entry whose substitute is the first candidate, in the
rule's declared order, available in the pantry by case-insensitive
substring containment, falling back to the rule's first-listed candidate
when no candidate is available. -/
theorem substitution_selects_first_available_candidate
    (recipe : CulturalRecipe) (pantryItems : List PantryItem) (userRegion : String) :
    (∀ ingredient ∈ recipe.authenticIngredients,
      ∀ rule, getSubstitutionRules (strLower ingredient) = some rule →
        ∃ sub ∈ findIngredientSubstitutes recipe pantryItems userRegion,
          sub.original = ingredient) ∧
    (∀ sub ∈ findIngredientSubstitutes recipe pantryItems userRegion,
      ∀ rule, getSubstitutionRules (strLower sub.original) = some rule →
        (∃ i, ∃ hi : i < rule.substitutes.length,
            rule.substitutes.get ⟨i, hi⟩ = sub.substitute ∧
            pantryHasSubstitute pantryItems sub.substitute = true ∧
            ∀ j, ∀ hj : j < rule.substitutes.length, j < i →
              pantryHasSubstitute pantryItems (rule.substitutes.get ⟨j, hj⟩) = false) ∨
        ((∀ c ∈ rule.substitutes, pantryHasSubstitute pantryItems c = false) ∧
         sub.substitute = rule.substitutes.headD "")) := by
  constructor
  · intro ingredient hmem rule hrule
    obtain ⟨sub, hs, ho⟩ :=
      substituteForIngredient_some_of_rule pantryItems ingredient rule hrule
    exact ⟨sub, List.mem_filterMap.mpr ⟨ingredient, hmem, hs⟩, ho⟩
  · intro sub hsub rule hrule
    obtain ⟨ing, hing, hf⟩ := List.mem_filterMap.mp hsub
    obtain ⟨rule', hrule', ho, hn, hfi, hsel⟩ :=
      substituteForIngredient_elim pantryItems ing sub hf
    rw [ho] at hrule
    rw [hrule] at hrule'
    have he : rule = rule' := by injection hrule'
    subst he
    cases hsel with
    | inl hfind =>
      obtain ⟨i, hi, hget, hp, hfirst⟩ :=
        find_first_char (pantryHasSubstitute pantryItems) rule.substitutes
          sub.substitute hfind
      exact Or.inl ⟨i, hi, hget, hp, hfirst⟩
    | inr hnone =>
      refine Or.inr ⟨?_, hnone.2⟩
      intro c hc
      have := List.find?_eq_none.mp hnone.1 c hc
      simpa using this

/-- The substitution rule for "galangal" in the static table. -/
def galangalRule : SubstitutionRule :=
  ⟨["ginger", "ginger with lemon zest"],
   "True galangal has a sharper, citrusy flavor than ginger",
   FlavorImpact.moderate⟩

/-- A pantry whose single item name contains the candidate "ginger". -/
def gingerPantry : List PantryItem := [⟨"Fresh Ginger Root"⟩]

/-- The substitution the engine emits for "galangal" with `gingerPantry`. -/
def galangalSub : IngredientSubstitution :=
  ⟨"galangal", "ginger",
   "True galangal has a sharper, citrusy flavor than ginger",
   FlavorImpact.moderate⟩

/-- Witness for C1: concrete application at ingredient "galangal" with a
pantry item "Fresh Ginger Root" that makes the first candidate available. -/
theorem substitution_selection_concrete_application :
    (∃ sub ∈ findIngredientSubstitutes ⟨"Tom Kha", ["galangal"]⟩ gingerPantry "sea",
        sub.original = "galangal") ∧
    ((∃ i, ∃ hi : i < galangalRule.substitutes.length,
         galangalRule.substitutes.get ⟨i, hi⟩ = galangalSub.substitute ∧
         pantryHasSubstitute gingerPantry galangalSub.substitute = true ∧
         ∀ j, ∀ hj : j < galangalRule.substitutes.length, j < i →
           pantryHasSubstitute gingerPantry (galangalRule.substitutes.get ⟨j, hj⟩)
             = false) ∨
     ((∀ c ∈ galangalRule.substitutes, pantryHasSubstitute gingerPantry c = false) ∧
      galangalSub.substitute = galangalRule.substitutes.headD "")) :=
  ⟨(substitution_selects_first_available_candidate ⟨"Tom Kha", ["galangal"]⟩
      gingerPantry "sea").1 "galangal" (by decide) galangalRule (by decide),
   (substitution_selects_first_available_candidate ⟨"Tom Kha", ["galangal"]⟩
      gingerPantry "sea").2 galangalSub (by decide) galangalRule (by decide)⟩

/-- Claim C8: every emitted substitution is consistent with the static
table: its original is an input ingredient verbatim, its substitute is a
member of the candidate list of the rule keyed by the lowercased original,
and its notes and flavor impact equal that rule's. -/
theorem substitution_output_consistent_with_table
    (recipe : CulturalRecipe) (pantryItems : List PantryItem) (userRegion : String) :
    ∀ sub ∈ findIngredientSubstitutes recipe pantryItems userRegion,
      sub.original ∈ recipe.authenticIngredients ∧
      ∃ rule, getSubstitutionRules (strLower sub.original) = some rule ∧
        sub.substitute ∈ rule.substitutes ∧
        sub.notes = rule.notes ∧ sub.flavorImpact = rule.flavorImpact := by
  intro sub hsub
  obtain ⟨ing, hing, hf⟩ := List.mem_filterMap.mp hsub
  obtain ⟨rule, hrule, ho, hn, hfi, hsel⟩ :=
    substituteForIngredient_elim pantryItems ing sub hf
  refine ⟨by rw [ho]; exact hing, rule, by rw [ho]; exact hrule, ?_, hn, hfi⟩
  cases hsel with
  | inl hfind => exact List.mem_of_find?_eq_some hfind
  | inr hnone =>
    rw [hnone.2]
    apply headD_mem
    exact substitutionRules_nonempty_lists _
      (lookup_mem_pairs substitutionRules (strLower ing) rule hrule)

/-- Witness for C8: the emitted substitution for "galangal" with
`gingerPantry` is consistent with the galangal rule of the table. -/
theorem substitution_consistency_concrete_application :
    galangalSub.original ∈
      (⟨"Tom Kha", ["galangal"]⟩ : CulturalRecipe).authenticIngredients ∧
    ∃ rule, getSubstitutionRules (strLower galangalSub.original) = some rule ∧
      galangalSub.substitute ∈ rule.substitutes ∧
      galangalSub.notes = rule.notes ∧ galangalSub.flavorImpact = rule.flavorImpact :=
  substitution_output_consistent_with_table ⟨"Tom Kha", ["galangal"]⟩ gingerPantry
    "sea" galangalSub (by decide)

/-- Claim C5: all four operations are total Lean functions and degrade to
defaults: unknown ingredients yield no output entry, unknown region codes
yield well-formed all-empty results in both lookups, and the authenticity
score is clamped at 0, never negative. -/
theorem engine_operations_total_with_defaults :
    (∀ (recipe : CulturalRecipe) (pantryItems : List PantryItem)
        (userRegion i : String),
      getSubstitutionRules (strLower i) = none →
        ∀ sub ∈ findIngredientSubstitutes recipe pantryItems userRegion,
          sub.original ≠ i) ∧
    (∀ (recipe : CulturalRecipe) (cuisine : Cuisine),
      traditionalPairings.lookup cuisine.region = none →
        findComplementaryDishes recipe cuisine = ⟨[], [], [], []⟩) ∧
    (∀ (recipe : CulturalRecipe) (region : String),
      regionalEtiquette.lookup region = none →
        getServingEtiquetteGuide recipe region = ⟨[], [], [], []⟩) ∧
    (∀ (recipe : CulturalRecipe) (subs : List IngredientSubstitution),
      0 ≤ (analyzeAuthenticityScore recipe subs).score) := by
  refine ⟨?_, ?_, ?_, ?_⟩
  · intro recipe pantryItems userRegion i hi sub hsub hoi
    obtain ⟨ing, hing, hf⟩ := List.mem_filterMap.mp hsub
    obtain ⟨rule, hrule, ho, _⟩ := substituteForIngredient_elim pantryItems ing sub hf
    have hie : ing = i := by rw [← ho, hoi]
    rw [hie, hi] at hrule
    exact Option.noConfusion hrule
  · intro recipe cuisine h
    simp [findComplementaryDishes, getTraditionalPairings, h]
  · intro recipe region h
    simp [getServingEtiquetteGuide, getRegionalEtiquette, h]
  · intro recipe subs
    have hmain : analyzeAuthenticityScore recipe subs =
        ⟨max 0 (100 - penaltySum subs), subs.map substitutionFeedback⟩ := by
      simp [analyzeAuthenticityScore, analyzeAuthenticity_foldl subs 100 []]
    rw [hmain]
    exact le_max_left 0 _

/-- Witness for C5: concrete unknown ingredient, unknown region for both
lookups, and a non-negative score. -/
theorem engine_degrades_to_defaults_concrete :
    galangalSub.original ≠ "dragon fruit" ∧
    findComplementaryDishes ⟨"Stew", []⟩ ⟨"atlantis", []⟩ = ⟨[], [], [], []⟩ ∧
    getServingEtiquetteGuide ⟨"Stew", []⟩ "atlantis" = ⟨[], [], [], []⟩ ∧
    0 ≤ (analyzeAuthenticityScore ⟨"Stew", []⟩ []).score :=
  ⟨engine_operations_total_with_defaults.1 ⟨"Tom Kha", ["galangal"]⟩ gingerPantry
      "sea" "dragon fruit" (by decide) galangalSub (by decide),
   engine_operations_total_with_defaults.2.1 ⟨"Stew", []⟩ ⟨"atlantis", []⟩ (by decide),
   engine_operations_total_with_defaults.2.2.1 ⟨"Stew", []⟩ "atlantis" (by decide),
   engine_operations_total_with_defaults.2.2.2 ⟨"Stew", []⟩ []⟩

/-- Claim C6: the pairing lookup is a case-sensitive exact match over
exactly the ten enumerated region codes; "east_asia" returns the literal
table entry; unknown codes (such as "atlantis", or the wrongly cased
"East_Asia") yield all four lists empty; and every populated region holds
exactly 3 dish names per category. -/
theorem complementary_dishes_lookup_spec :
    traditionalPairings.map Prod.fst
      = ["east_asia", "southeast_asia", "south_asia", "middle_east",
         "mediterranean", "latin_america", "caribbean", "west_africa",
         "east_africa", "north_africa"] ∧
    (∀ (recipe : CulturalRecipe) (ki : List String),
      findComplementaryDishes recipe ⟨"east_asia", ki⟩
        = ⟨["Steamed Fish", "Stir-fried Vegetables", "Clay Pot Rice"],
           ["Pickled Vegetables", "Cold Salad", "Steamed Eggs"],
           ["Red Bean Soup", "Mango Pudding", "Egg Tarts"],
           ["Jasmine Tea", "Oolong Tea", "Rice Wine"]⟩) ∧
    (∀ (recipe : CulturalRecipe) (cuisine : Cuisine),
      traditionalPairings.lookup cuisine.region = none →
        findComplementaryDishes recipe cuisine = ⟨[], [], [], []⟩) ∧
    (∀ (recipe : CulturalRecipe) (ki : List String),
      findComplementaryDishes recipe ⟨"atlantis", ki⟩ = ⟨[], [], [], []⟩) ∧
    (∀ (recipe : CulturalRecipe) (ki : List String),
      findComplementaryDishes recipe ⟨"East_Asia", ki⟩ = ⟨[], [], [], []⟩) ∧
    (∀ entry ∈ traditionalPairings,
      entry.2.mainDishes.length = 3 ∧ entry.2.sideDishes.length = 3 ∧
      entry.2.desserts.length = 3 ∧ entry.2.beverages.length = 3) := by
  refine ⟨rfl, fun recipe ki => rfl, ?_, fun recipe ki => rfl, fun recipe ki => rfl,
    by decide⟩
  intro recipe cuisine h
  simp [findComplementaryDishes, getTraditionalPairings, h]

/-- Witness for C6: concrete unknown region and the lengths of the first
table entry. -/
theorem complementary_dishes_unknown_region_concrete :
    findComplementaryDishes ⟨"Stew", []⟩ ⟨"narnia", ["turnip"]⟩ = ⟨[], [], [], []⟩ ∧
    ((traditionalPairings.headD ("", ⟨[], [], [], []⟩)).2.mainDishes.length = 3 ∧
     (traditionalPairings.headD ("", ⟨[], [], [], []⟩)).2.sideDishes.length = 3 ∧
     (traditionalPairings.headD ("", ⟨[], [], [], []⟩)).2.desserts.length = 3 ∧
     (traditionalPairings.headD ("", ⟨[], [], [], []⟩)).2.beverages.length = 3) :=
  ⟨complementary_dishes_lookup_spec.2.2.1 ⟨"Stew", []⟩ ⟨"narnia", ["turnip"]⟩
      (by decide),
   complementary_dishes_lookup_spec.2.2.2.2.2
      (traditionalPairings.headD ("", ⟨[], [], [], []⟩)) (by decide)⟩

/-- Claim C7: the etiquette table is keyed independently of the pairings
table and covers only the six enumerated regions; "west_africa" — present
in pairings — returns all four etiquette lists empty; every populated
etiquette region holds between 3 and 6 strings per category. -/
theorem serving_etiquette_lookup_spec :
    regionalEtiquette.map Prod.fst
      = ["east_asia", "southeast_asia", "south_asia", "middle_east",
         "mediterranean", "latin_america"] ∧
    (∀ recipe : CulturalRecipe,
      getServingEtiquetteGuide recipe "west_africa" = ⟨[], [], [], []⟩) ∧
    (traditionalPairings.lookup "west_africa").isSome = true ∧
    (∀ (recipe : CulturalRecipe) (region : String),
      regionalEtiquette.lookup region = none →
        getServingEtiquetteGuide recipe region = ⟨[], [], [], []⟩) ∧
    (∀ entry ∈ regionalEtiquette,
      (3 ≤ entry.2.presentation.length ∧ entry.2.presentation.length ≤ 6) ∧
      (3 ≤ entry.2.customs.length ∧ entry.2.customs.length ≤ 6) ∧
      (3 ≤ entry.2.taboos.length ∧ entry.2.taboos.length ≤ 6) ∧
      (3 ≤ entry.2.servingOrder.length ∧ entry.2.servingOrder.length ≤ 6)) := by
  refine ⟨rfl, fun recipe => rfl, rfl, ?_, by decide⟩
  intro recipe region h
  simp [getServingEtiquetteGuide, getRegionalEtiquette, h]

/-- Witness for C7: concrete region absent from the etiquette table and
the category bounds of the first etiquette entry. -/
theorem serving_etiquette_unknown_region_concrete :
    getServingEtiquetteGuide ⟨"Jollof", []⟩ "caribbean" = ⟨[], [], [], []⟩ ∧
    ((3 ≤ (regionalEtiquette.headD ("", ⟨[], [], [], []⟩)).2.presentation.length ∧
      (regionalEtiquette.headD ("", ⟨[], [], [], []⟩)).2.presentation.length ≤ 6) ∧
     (3 ≤ (regionalEtiquette.headD ("", ⟨[], [], [], []⟩)).2.customs.length ∧
      (regionalEtiquette.headD ("", ⟨[], [], [], []⟩)).2.customs.length ≤ 6) ∧
     (3 ≤ (regionalEtiquette.headD ("", ⟨[], [], [], []⟩)).2.taboos.length ∧
      (regionalEtiquette.headD ("", ⟨[], [], [], []⟩)).2.taboos.length ≤ 6) ∧
     (3 ≤ (regionalEtiquette.headD ("", ⟨[], [], [], []⟩)).2.servingOrder.length ∧
      (regionalEtiquette.headD ("", ⟨[], [], [], []⟩)).2.servingOrder.length ≤ 6)) :=
  ⟨serving_etiquette_lookup_spec.2.2.2.1 ⟨"Jollof", []⟩ "caribbean" (by decide),
   serving_etiquette_lookup_spec.2.2.2.2
      (regionalEtiquette.headD ("", ⟨[], [], [], []⟩)) (by decide)⟩

/-- Claim C10: the pairing and etiquette lookups depend only on the region
code, and the authenticity score is independent of the recipe argument. -/
theorem region_keyed_lookups_recipe_independent :
    (∀ (r1 r2 : CulturalRecipe) (c1 c2 : Cuisine), c1.region = c2.region →
      findComplementaryDishes r1 c1 = findComplementaryDishes r2 c2) ∧
    (∀ (r1 r2 : CulturalRecipe) (region : String),
      getServingEtiquetteGuide r1 region = getServingEtiquetteGuide r2 region) ∧
    (∀ (r1 r2 : CulturalRecipe) (subs : List IngredientSubstitution),
      analyzeAuthenticityScore r1 subs = analyzeAuthenticityScore r2 subs) := by
  refine ⟨?_, fun r1 r2 region => rfl, fun r1 r2 subs => rfl⟩
  intro r1 r2 c1 c2 h
  unfold findComplementaryDishes
  rw [h]

/-- Witness for C10: two different recipes and cuisine descriptors sharing
the region code "east_asia" yield the same pairing result. -/
theorem region_keyed_lookup_concrete_application :
    findComplementaryDishes ⟨"A", ["x"]⟩ ⟨"east_asia", ["rice"]⟩
      = findComplementaryDishes ⟨"B", []⟩ ⟨"east_asia", []⟩ :=
  region_keyed_lookups_recipe_independent.1 ⟨"A", ["x"]⟩ ⟨"B", []⟩
    ⟨"east_asia", ["rice"]⟩ ⟨"east_asia", []⟩ rfl
